import Mathlib

/-!
Verification of the qzcli local configuration, cookie, token-cache and
resource-cache layer.

This file is a shallow embedding of the pure content of
src/qzcli/config.py and of the listing / name-resolution fragments of
src/qzcli/cli.py.  Python dictionaries (which iterate in insertion order)
are modelled as association lists, Python strings as Lean strings whose
character data is manipulated directly, and the state of a JSON-backed
file as an explicit value that is passed to and returned from each
operation.  A file on disk is either missing, present but unreadable or
unparsable as JSON, or parsed into a typed document.  All definitions are
executable, so every concrete instance below is settled by evaluation.
-/

namespace Qzcli

/-! Python string primitives.

Python string operations used by the source are re-implemented over the
character lists underlying Lean strings, because the corresponding
built-in Lean string functions do not reduce inside the kernel. -/

/-- Models the Python expression s.lower() : every character is mapped to
its lower-case form, as a list of characters. -/
def lowerChars (s : String) : List Char :=
  s.data.map Char.toLower

/-- Models Python str.lower() returning a string. -/
def pyLower (s : String) : String :=
  String.mk (lowerChars s)

/-- Boolean test that the first list is an initial segment of the second;
this is the character-level content of Python str.startswith. -/
def listIsPre : List Char → List Char → Bool
  | [], _ => true
  | _ :: _, [] => false
  | a :: ps, b :: ls => a = b && listIsPre ps ls

/-- Boolean test that the first list occurs contiguously inside the
second; this is the character-level content of the Python operator
needle in hay on strings. -/
def listIsSub (needle : List Char) (hay : List Char) : Bool :=
  match hay with
  | [] => listIsPre needle []
  | _ :: rest => listIsPre needle hay || listIsSub needle rest

/-- Models the Python expression tok.startswith(p). -/
def pyStartsWith (tok : String) (p : String) : Bool :=
  listIsPre p.data tok.data

/-- Models the Python expression needle.lower() in hay.lower(), the
case-insensitive substring test used by both fuzzy-match passes and by
the status filter of the job listing. -/
def pyContainsCI (hay : String) (needle : String) : Bool :=
  listIsSub (lowerChars needle) (lowerChars hay)

/-! Python dictionaries as insertion-ordered association lists. -/

/-- Models the Python expression d.get(k) (equivalently d[k] preceded by
a membership test): the value at the first occurrence of the key. -/
def alookup {α : Type} : List (String × α) → String → Option α
  | [], _ => none
  | (k₀, v) :: rest, k => if k₀ = k then some v else alookup rest k

/-- Models the Python statement d[k] = v on a dict: if the key is
present its value is replaced in place (the key keeps its position in
iteration order), otherwise the new pair is appended at the end. -/
def dictSet {α : Type} : List (String × α) → String → α → List (String × α)
  | [], k, v => [(k, v)]
  | (k₀, v₀) :: rest, k, v =>
    if k₀ = k then (k, v) :: rest else (k₀, v₀) :: dictSet rest k v

/-! The state of a JSON-backed file. -/

/-- State of one on-disk JSON document as the load functions of
config.py observe it: the file can be absent, it can exist but fail to
be read or parsed as JSON (the except branches for JSONDecodeError and
IOError), or it can parse into a document of the given type. -/
inductive FileState (α : Type) where
  | missing : FileState α
  | corrupt : FileState α
  | parsed : α → FileState α
deriving DecidableEq

/-! The config document (config.py, load_config / DEFAULT_CONFIG). -/

/-- Fully populated configuration record, the shape of DEFAULT_CONFIG in
config.py. -/
structure Config where
  api_base_url : String
  username : String
  password : String
  token_cache_enabled : Bool
deriving DecidableEq

/-- Models the module constant DEFAULT_CONFIG of config.py. -/
def DEFAULT_CONFIG : Config :=
  { api_base_url := "https://qz.sii.edu.cn"
    username := ""
    password := ""
    token_cache_enabled := true }

/-- Parsed content of config.json: each key may be absent, in which case
the merge with the defaults supplies the default value. -/
structure ConfigDoc where
  api_base_url : Option String
  username : Option String
  password : Option String
  token_cache_enabled : Option Bool
deriving DecidableEq

/-- Models the merge expression that load_config evaluates on a parsed
document: every key of the document wins over the default, every key
absent from the document keeps its default. -/
def mergeConfig (d : ConfigDoc) : Config :=
  { api_base_url := d.api_base_url.getD DEFAULT_CONFIG.api_base_url
    username := d.username.getD DEFAULT_CONFIG.username
    password := d.password.getD DEFAULT_CONFIG.password
    token_cache_enabled := d.token_cache_enabled.getD DEFAULT_CONFIG.token_cache_enabled }

/-- Models load_config of config.py.  A missing file and a file whose
read or JSON parse raises are both mapped to a copy of DEFAULT_CONFIG;
the function is total, so no exception reaches the caller. -/
def load_config : FileState ConfigDoc → Config
  | FileState.missing => DEFAULT_CONFIG
  | FileState.corrupt => DEFAULT_CONFIG
  | FileState.parsed d => mergeConfig d

/-! The cookie document (config.py, save_cookie / get_cookie). -/

/-- Parsed content of the cookie file as written by save_cookie. -/
structure CookieData where
  cookie : String
  workspace_id : String
  saved_at : Nat
deriving DecidableEq

/-- Models save_cookie of config.py: the cookie file is rewritten with a
document holding exactly the supplied cookie, workspace id and the
current time; the previous file state is discarded wholesale. -/
def save_cookie (_prior : FileState CookieData) (cookie : String)
    (workspace_id : String) (now : Nat) : FileState CookieData :=
  FileState.parsed { cookie := cookie, workspace_id := workspace_id, saved_at := now }

/-- Models get_cookie of config.py: none when the file is missing, none
when reading or parsing raises (the except branch returns None), and the
parsed document otherwise. -/
def get_cookie : FileState CookieData → Option CookieData
  | FileState.missing => none
  | FileState.corrupt => none
  | FileState.parsed d => some d

/-! The token cache document (config.py, get_token_cache). -/

/-- Parsed content of the token cache file; both keys may be absent in a
hand-edited file, and get_token_cache reads expires_at with default 0. -/
structure TokenCacheData where
  token : Option String
  expires_at : Option Int
deriving DecidableEq

/-- Value of the expression cache.get of key expires_at with default 0
inside get_token_cache. -/
def TokenCacheData.expiresAtD (c : TokenCacheData) : Int :=
  c.expires_at.getD 0

/-- Models get_token_cache of config.py.  The current time is the value
time.time() returns during the call.  The cached record is returned only
when the file exists, parses, and its expiry lies more than 300 seconds
(the five-minute buffer) in the future; every other path falls through
to None. -/
def get_token_cache (file : FileState TokenCacheData) (now : Int) : Option TokenCacheData :=
  match file with
  | FileState.missing => none
  | FileState.corrupt => none
  | FileState.parsed c => if c.expiresAtD > now + 300 then some c else none

/-! The resource cache document (config.py, save_resources and the
functions below it). -/

/-- One cached resource record (a project, compute group or spec).  The
source stores the raw JSON object; the resolution code reads only its id
and its name, the latter through a get with default empty string, so a
possibly-absent name is the one optional field the model keeps. -/
structure Resource where
  id : String
  name : Option String
deriving DecidableEq

/-- Value of the expression res_data.get of key name with default empty
string, used by both match passes of find_resource_by_name. -/
def Resource.getName (r : Resource) : String :=
  r.name.getD ("")

/-- One workspace entry of resources.json.  Entries written by
save_resources and set_workspace_name always carry all six keys, and the
alias is read everywhere through a get with default empty string, so the
alias is modelled as a total field where an absent key is the empty
string. -/
structure WorkspaceCache where
  id : String
  name : String
  projects : List (String × Resource)
  compute_groups : List (String × Resource)
  specs : List (String × Resource)
  updated_at : Nat
deriving DecidableEq

/-- Parsed content of resources.json: workspace id to cache entry, in
insertion order. -/
abbrev AllResources := List (String × WorkspaceCache)

/-- Models load_all_resources of config.py: the empty dict when the file
is missing and when reading or parsing raises; the parsed map otherwise.
The function is total, so no exception reaches the caller. -/
def load_all_resources : FileState AllResources → AllResources
  | FileState.missing => []
  | FileState.corrupt => []
  | FileState.parsed m => m

/-- Freshly fetched resource lists as passed to save_resources; a key
absent from the payload dict is read with default empty list, which this
model folds into an empty list field. -/
structure ResourcesPayload where
  projects : List Resource
  compute_groups : List Resource
  specs : List Resource
deriving DecidableEq

/-- Models the dict comprehension keying a resource list by id inside
save_resources: later duplicates overwrite earlier ones but keep the
first position, exactly as consecutive dict assignments do. -/
def keyById (rs : List Resource) : List (String × Resource) :=
  rs.foldl (fun acc r => dictSet acc r.id r) []

/-- Models save_resources of config.py on the loaded map: the entry of
the workspace is replaced wholesale with freshly keyed category maps,
updated_at set to the current time, and the alias set to the supplied
name when that name is non-empty (Python truthiness of a string) and to
the previously stored alias (default empty) otherwise.  The result is
the map that is serialized back to resources.json. -/
def save_resources (all : AllResources) (workspace_id : String)
    (resources : ResourcesPayload) (name : String) (now : Nat) : AllResources :=
  dictSet all workspace_id
    { id := workspace_id
      name := if name = "" then ((alookup all workspace_id).map WorkspaceCache.name).getD ("") else name
      projects := keyById resources.projects
      compute_groups := keyById resources.compute_groups
      specs := keyById resources.specs
      updated_at := now }

/-- Models get_workspace_resources of config.py: a plain lookup. -/
def get_workspace_resources (all : AllResources) (workspace_id : String) :
    Option WorkspaceCache :=
  alookup all workspace_id

/-- Models set_workspace_name of config.py on the loaded map, paired
with the returned boolean: when the workspace has no entry a fresh entry
with empty category maps, the given alias and updated_at set to now is
inserted; otherwise only the alias field of the existing entry is
reassigned.  The function always returns True. -/
def set_workspace_name (all : AllResources) (workspace_id : String)
    (name : String) (now : Nat) : AllResources × Bool :=
  match alookup all workspace_id with
  | none =>
    (dictSet all workspace_id
      { id := workspace_id, name := name, projects := [], compute_groups := []
        specs := [], updated_at := now }, true)
  | some entry => (dictSet all workspace_id { entry with name := name }, true)

/-- Models find_workspace_by_name of config.py: a first pass over all
entries looking for an exact, case-sensitive alias match, then a second
pass looking for a case-insensitive substring match, each returning the
first hit in iteration order; None when both passes fail. -/
def find_workspace_by_name (all : AllResources) (name : String) : Option String :=
  match all.find? (fun kv => kv.2.name = name) with
  | some kv => some kv.1
  | none =>
    match all.find? (fun kv => pyContainsCI kv.2.name name) with
    | some kv => some kv.1
    | none => none

/-- Models the expression ws_resources.get(resource_type) with default
empty dict inside find_resource_by_name: the three known category keys
select their map, any other key yields the empty dict. -/
def categoryMap (ws : WorkspaceCache) (resource_type : String) : List (String × Resource) :=
  if resource_type = "projects" then ws.projects
  else if resource_type = "compute_groups" then ws.compute_groups
  else if resource_type = "specs" then ws.specs
  else []

/-- Models find_resource_by_name of config.py: None when the workspace
has no cache entry (entries written by this module are never empty
dicts, so Python falsiness coincides with absence), otherwise an exact
pass then a case-insensitive substring pass over the one selected
category map, first hit in iteration order. -/
def find_resource_by_name (all : AllResources) (workspace_id : String)
    (resource_type : String) (name : String) : Option Resource :=
  match get_workspace_resources all workspace_id with
  | none => none
  | some ws =>
    match (categoryMap ws resource_type).find? (fun kv => kv.2.getName = name) with
    | some kv => some kv.2
    | none =>
      match (categoryMap ws resource_type).find? (fun kv => pyContainsCI kv.2.getName name) with
      | some kv => some kv.2
      | none => none

/-! The write discipline of the resource cache (config.py, the final
write of save_resources and of set_workspace_name).

Both functions persist with the Python statement sequence open of
RESOURCES_FILE with mode w followed by json.dump: opening a file with
mode w truncates it immediately, after which the serialized document is
written sequentially.  The model below exposes the on-disk byte content
reached when an I/O error interrupts the write after a given number of
characters. -/

/-- Models an interrupted in-place write with mode w: the prior content
is destroyed the moment the file is opened, and the error leaves exactly
the first written characters of the new content on disk. -/
def truncateThenWrite (_prior : List Char) (content : List Char) (written : Nat) : List Char :=
  content.take written

/-- On-disk content of resources.json when the final write of
save_resources is interrupted after the given number of characters. -/
def save_resources_disk_write (prior : List Char) (serialized : List Char)
    (written : Nat) : List Char :=
  truncateThenWrite prior serialized written

/-- On-disk content of resources.json when the final write of
set_workspace_name is interrupted after the given number of characters;
the source uses the identical statement sequence. -/
def set_workspace_name_disk_write (prior : List Char) (serialized : List Char)
    (written : Nat) : List Char :=
  truncateThenWrite prior serialized written

/-- Modelled from the spec: the write-new-then-replace discipline the
spec prescribes for store writes, which src/qzcli/config.py does not
implement.  The new content is written to a separate file and the
replacement is a single atomic step, so an error before the write
completes leaves the prior content untouched. -/
def writeNewThenReplace (prior : List Char) (content : List Char) (written : Nat) : List Char :=
  if content.length ≤ written then content else prior

/-! The CLI name-to-id resolution (cli.py, cmd_list_cookie and
cmd_avail). -/

/-- Models the workspace-token branch shared by cmd_list_cookie and
cmd_avail in cli.py: a token carrying the literal workspace id marker is
used directly as the canonical id, any other token goes through
find_workspace_by_name, whose failure aborts the command (None). -/
def resolve_workspace_token (all : AllResources) (tok : String) : Option String :=
  if pyStartsWith tok ("ws-") then some tok
  else find_workspace_by_name all tok

/-- Models the group-filter branch of cmd_avail in cli.py: a token
carrying the literal compute-group id marker is looked up directly as a
key of the cached compute_groups dict of the workspace (the workspace is
skipped when absent), while any other token goes through
find_resource_by_name on the compute_groups category; in both cases a
hit narrows the dict to the single matching entry. -/
def resolve_group_filter (all : AllResources) (workspace_id : String)
    (compute_groups : List (String × Resource)) (group_filter : String) :
    Option (List (String × Resource)) :=
  if pyStartsWith group_filter ("lcg-") then
    match alookup compute_groups group_filter with
    | some g => some [(group_filter, g)]
    | none => none
  else
    match find_resource_by_name all workspace_id ("compute_groups") group_filter with
    | some found => some [(found.id, found)]
    | none => none

/-! The job-listing pipeline (cli.py, cmd_list_cookie, the sort, filter
and slice applied to the collected records). -/

/-- Job record as the listing pipeline of cmd_list_cookie reads it: only
the status and the possibly-absent creation timestamp take part, the id
identifies records in examples. -/
structure JobRecord where
  job_id : String
  status : String
  created_at : Option String
deriving DecidableEq

/-- Sort key of a record: the Python expression x.created_at or the
empty string, as character data; an absent timestamp becomes the empty
string. -/
def JobRecord.sortKeyData (j : JobRecord) : List Char :=
  (j.created_at.getD ("")).data

/-- Ordering used by the Python call sort with key created_at-or-empty
and reverse true: a record comes before another exactly when its key is
greater or equal, that is, timestamps descend along the list. -/
def jobSortRel (a b : JobRecord) : Prop :=
  b.sortKeyData ≤ a.sortKeyData

instance : DecidableRel jobSortRel :=
  fun a b => inferInstanceAs (Decidable (b.sortKeyData ≤ a.sortKeyData))

instance : IsTotal JobRecord jobSortRel :=
  ⟨fun a b => le_total b.sortKeyData a.sortKeyData⟩

instance : IsTrans JobRecord jobSortRel :=
  ⟨fun _ _ _ hab hbc => le_trans hbc hab⟩

/-- Models the sort step: Python list sort is a stable sort, and
insertion sort with the descending-key relation is stable in the same
sense, keeping the original order of records with equal keys. -/
def sortJobs (jobs : List JobRecord) : List JobRecord :=
  List.insertionSort jobSortRel jobs

/-- Models the active-status test of the running filter in
cmd_list_cookie: membership of the lowered status in the literal set,
or a lowered substring hit on running or queue. -/
def isActiveStatus (status : String) : Bool :=
  (pyLower status = "job_running" || pyLower status = "job_queuing" ||
   pyLower status = "job_pending" || pyLower status = "running" ||
   pyLower status = "queuing" || pyLower status = "pending") ||
  listIsSub ("running").data (lowerChars status) ||
  listIsSub ("queue").data (lowerChars status)

/-- Sorted records after the optional status filter of cmd_list_cookie:
with a filter, exactly the records whose status contains it
case-insensitively survive, in sorted order. -/
def statusFiltered (jobs : List JobRecord) (status : Option String) : List JobRecord :=
  match status with
  | some s => (sortJobs jobs).filter (fun j : JobRecord => pyContainsCI j.status s)
  | none => sortJobs jobs

/-- Models lines 143 to 159 of cli.py: the collected records are sorted
by descending creation time, then filtered by the optional status
substring (case-insensitively), then filtered by the optional running
flag, and only then truncated to the limit. -/
def cmd_list_cookie_pipeline (jobs : List JobRecord) (status : Option String)
    (running : Bool) (limit : Nat) : List JobRecord :=
  List.take limit
    (if running then
      (statusFiltered jobs status).filter (fun j : JobRecord => isActiveStatus j.status)
    else statusFiltered jobs status)

/-! Concrete data used by the worked examples of the spec. -/

/-- Workspace cache entry holding only an id and an alias, as
set_workspace_name creates them. -/
def wsEntry (id : String) (name : String) : WorkspaceCache :=
  { id := id, name := name, projects := [], compute_groups := []
    specs := [], updated_at := 0 }

/-- Cached aliases of the worked example of the spec, in the quoted
order. -/
def demoWorkspaces : AllResources :=
  [(("ws-1"), wsEntry ("ws-1") ("GPU-Team")),
   (("ws-2"), wsEntry ("ws-2") ("gpu-team-backup"))]

/-- Same two entries with the exactly matching alias second, so that the
substring pass alone would return the other workspace. -/
def demoWorkspacesRev : AllResources :=
  [(("ws-2"), wsEntry ("ws-2") ("gpu-team-backup")),
   (("ws-1"), wsEntry ("ws-1") ("GPU-Team"))]

/-- Cache with one workspace aliased Alpha, for the save_resources alias
example of the spec. -/
def demoAlpha : AllResources :=
  [(("ws-1"), wsEntry ("ws-1") ("Alpha"))]

/-- Payload with all three resource lists empty. -/
def emptyPayload : ResourcesPayload :=
  { projects := [], compute_groups := [], specs := [] }

/-- Project resource with an exactly matching name. -/
def demoResA : Resource := { id := ("p-1"), name := some ("Alpha-Proj") }

/-- Project resource whose name contains the other name as a
case-insensitive substring. -/
def demoResB : Resource := { id := ("p-2"), name := some ("alpha-proj-backup") }

/-- Workspace whose projects dict lists the substring match before the
exact match in iteration order. -/
def demoWsRes : WorkspaceCache :=
  { id := ("ws-9"), name := ("W")
    projects := [(("p-2"), demoResB), (("p-1"), demoResA)]
    compute_groups := [], specs := [], updated_at := 0 }

/-- Resource cache holding the one workspace above. -/
def demoResAll : AllResources := [(("ws-9"), demoWsRes)]

/-- Jobs of the status-filter example of the spec: statuses job_running,
job_succeeded and RUNNING, with distinct timestamps. -/
def demoJob1 : JobRecord :=
  { job_id := ("1"), status := ("job_running"), created_at := some ("2024-01-03") }

def demoJob2 : JobRecord :=
  { job_id := ("2"), status := ("job_succeeded"), created_at := some ("2024-01-02") }

def demoJob3 : JobRecord :=
  { job_id := ("3"), status := ("RUNNING"), created_at := some ("2024-01-01") }

/-- The three jobs in a scrambled input order. -/
def demoJobs : List JobRecord := [demoJob2, demoJob3, demoJob1]

end Qzcli

namespace Qzcli

/-! Helper lemmas about the dictionary model. -/

theorem alookup_dictSet_self {α : Type} (m : List (String × α)) (k : String) (v : α) :
    alookup (dictSet m k v) k = some v := by
  induction m with
  | nil => simp [dictSet, alookup]
  | cons hd tl ih =>
    obtain ⟨k₀, v₀⟩ := hd
    by_cases h : k₀ = k
    · simp [dictSet, h, alookup]
    · simp [dictSet, h, alookup, ih]

theorem alookup_dictSet_ne {α : Type} (m : List (String × α)) (k k₀ : String) (v : α)
    (h : k₀ ≠ k) : alookup (dictSet m k v) k₀ = alookup m k₀ := by
  induction m with
  | nil => simp [dictSet, alookup, Ne.symm h]
  | cons hd tl ih =>
    obtain ⟨k₁, v₁⟩ := hd
    by_cases hk : k₁ = k
    · subst hk
      simp [dictSet, alookup, Ne.symm h]
    · by_cases hk₀ : k₁ = k₀ <;> simp [dictSet, alookup, hk, hk₀, ih, h]

theorem find_resource_by_name_eq (all : AllResources) (workspace_id : String)
    (resource_type : String) (name : String) :
    find_resource_by_name all workspace_id resource_type name =
      (match (alookup all workspace_id).map (fun ws => categoryMap ws resource_type) with
       | none => none
       | some resources =>
         match resources.find? (fun kv => kv.2.getName = name) with
         | some kv => some kv.2
         | none =>
           (resources.find? (fun kv => pyContainsCI kv.2.getName name)).map Prod.snd) := by
  cases h : alookup all workspace_id with
  | none => simp [find_resource_by_name, get_workspace_resources, h]
  | some ws =>
    cases hf : (categoryMap ws resource_type).find? (fun kv => kv.2.getName = name) with
    | some kv => simp [find_resource_by_name, get_workspace_resources, h, hf]
    | none =>
      cases hz : (categoryMap ws resource_type).find?
          (fun kv => pyContainsCI kv.2.getName name) <;>
        simp [find_resource_by_name, get_workspace_resources, h, hf, hz]

/-! Theorems for the claims. -/

/-- C1, counterexample.  The claim states that a save_resources or
set_workspace_name write failing with an I/O error leaves the prior
on-disk resource cache unchanged because writes use
write-new-then-replace.  The source opens resources.json with mode w and
writes in place, so at this concrete prior content, new serialized
document and interruption point the on-disk state is a truncated
fragment that differs from both the prior and the new document, and the
set_workspace_name write interrupted at zero characters leaves the file
empty. -/
theorem save_resources_write_not_atomic_cx :
    save_resources_disk_write ("old cache doc").data ("new cache document").data 7
        ≠ ("old cache doc").data ∧
    save_resources_disk_write ("old cache doc").data ("new cache document").data 7
        ≠ ("new cache document").data ∧
    set_workspace_name_disk_write ("old cache doc").data ("new cache document").data 0
        = [] := by
  decide

/-- C1, amended.  The writes of save_resources and set_workspace_name
open the resource cache file with mode w and write in place, so a write
interrupted by an I/O error after some number of characters leaves the
file holding exactly that initial fragment of the new serialized
document; whenever that fragment differs from the prior content, the
prior on-disk state is not preserved and a caller can observe a
half-written or truncated cache.  The write-new-then-replace discipline
prescribed by the spec would instead leave the prior content intact on
every incomplete write. -/
theorem save_resources_inplace_write (prior : List Char) (content : List Char)
    (written : Nat) (h : written < content.length) :
    save_resources_disk_write prior content written = content.take written ∧
    (content.take written ≠ prior →
      save_resources_disk_write prior content written ≠ prior) ∧
    writeNewThenReplace prior content written = prior := by
  refine ⟨rfl, fun hne => hne, ?_⟩
  unfold writeNewThenReplace
  rw [if_neg (Nat.not_le.mpr h)]

/-- C1, witness for the amended theorem at a concrete interrupted
write. -/
theorem save_resources_inplace_write_witness :
    save_resources_disk_write ("ab").data ("xyz").data 1 ≠ ("ab").data ∧
    writeNewThenReplace ("ab").data ("xyz").data 1 = ("ab").data :=
  ⟨(save_resources_inplace_write ("ab").data ("xyz").data 1 (by decide)).2.1 (by decide),
   (save_resources_inplace_write ("ab").data ("xyz").data 1 (by decide)).2.2⟩

/-- C4.  Loading a persisted document whose backing file is missing, or
whose content fails to parse as JSON, returns the documented default
instead of raising: load_config falls back to DEFAULT_CONFIG,
load_all_resources to the empty map, and get_cookie to None.  All three
load functions are total Lean functions, so no parse or I/O exception
propagates to a caller on any file state. -/
theorem load_defaults_on_missing_or_corrupt :
    load_config FileState.missing = DEFAULT_CONFIG ∧
    load_config FileState.corrupt = DEFAULT_CONFIG ∧
    load_all_resources FileState.missing = [] ∧
    load_all_resources FileState.corrupt = [] ∧
    get_cookie FileState.missing = none ∧
    get_cookie FileState.corrupt = none :=
  ⟨rfl, rfl, rfl, rfl, rfl, rfl⟩

/-- C9.  Saving a cookie and then loading it yields a record whose
cookie and workspace id fields equal the values just saved, for every
previously stored cookie file state: each save replaces the single
global cookie document wholesale. -/
theorem cookie_save_then_get (prior : FileState CookieData) (cookie : String)
    (workspace_id : String) (now : Nat) :
    get_cookie (save_cookie prior cookie workspace_id now) =
      some { cookie := cookie, workspace_id := workspace_id, saved_at := now } :=
  rfl

/-- C2.  find_workspace_by_name first scans all cached entries for an
exact, case-sensitive alias match and returns the id of the first hit;
only when no exact match exists does it take the first entry in
iteration order whose alias contains the query case-insensitively; when
both passes fail it returns None.  The closed conjuncts settle the
worked example of the spec: with aliases GPU-Team and gpu-team-backup
cached (in either order), the query GPU-Team resolves to the exactly
matching workspace, and the query team resolves to the first substring
match. -/
theorem find_workspace_two_pass (all : AllResources) (name : String) :
    (∀ kv : String × WorkspaceCache,
        all.find? (fun kv => kv.2.name = name) = some kv →
        find_workspace_by_name all name = some kv.1) ∧
    (all.find? (fun kv => kv.2.name = name) = none →
        find_workspace_by_name all name =
          (all.find? (fun kv => pyContainsCI kv.2.name name)).map Prod.fst) ∧
    (all.find? (fun kv => kv.2.name = name) = none →
        all.find? (fun kv => pyContainsCI kv.2.name name) = none →
        find_workspace_by_name all name = none) ∧
    find_workspace_by_name demoWorkspaces ("GPU-Team") = some ("ws-1") ∧
    find_workspace_by_name demoWorkspacesRev ("GPU-Team") = some ("ws-1") ∧
    find_workspace_by_name demoWorkspaces ("team") = some ("ws-1") := by
  refine ⟨?_, ?_, ?_, by decide, by decide, by decide⟩
  · intro kv h
    simp [find_workspace_by_name, h]
  · intro h
    cases hf : all.find? (fun kv => pyContainsCI kv.2.name name) <;>
      simp [find_workspace_by_name, h, hf]
  · intro h hf
    simp [find_workspace_by_name, h, hf]

/-- C2, witness: the exact pass wins at a concrete cache where the
substring pass alone would return the other workspace, and both passes
failing yields None. -/
theorem find_workspace_two_pass_witness :
    find_workspace_by_name demoWorkspacesRev ("GPU-Team") = some ("ws-1") ∧
    find_workspace_by_name demoWorkspaces ("nfs-team") = none :=
  ⟨(find_workspace_two_pass demoWorkspacesRev ("GPU-Team")).1
      (("ws-1"), wsEntry ("ws-1") ("GPU-Team")) (by decide),
   (find_workspace_two_pass demoWorkspaces ("nfs-team")).2.2.1 (by decide) (by decide)⟩

/-- C3.  save_resources replaces the entry of the workspace wholesale:
the three category maps are rebuilt from the fresh lists keyed by id,
updated_at becomes the current time, and the alias is the supplied name
when non-empty and the previously stored alias (default empty) when the
supplied name is empty.  The closed conjuncts settle the worked example
of the spec: an empty name keeps the prior alias Alpha, the name Beta
replaces it. -/
theorem save_resources_replaces_entry (all : AllResources) (workspace_id : String)
    (resources : ResourcesPayload) (name : String) (now : Nat) :
    (∃ entry : WorkspaceCache,
      alookup (save_resources all workspace_id resources name now) workspace_id =
        some entry ∧
      entry.id = workspace_id ∧
      entry.projects = keyById resources.projects ∧
      entry.compute_groups = keyById resources.compute_groups ∧
      entry.specs = keyById resources.specs ∧
      entry.updated_at = now ∧
      entry.name = (if name = "" then
        ((alookup all workspace_id).map WorkspaceCache.name).getD ("") else name)) ∧
    (alookup (save_resources demoAlpha ("ws-1") emptyPayload ("") 5) ("ws-1")).map
        WorkspaceCache.name = some ("Alpha") ∧
    (alookup (save_resources demoAlpha ("ws-1") emptyPayload ("Beta") 5) ("ws-1")).map
        WorkspaceCache.name = some ("Beta") := by
  refine ⟨⟨_, alookup_dictSet_self all workspace_id _, rfl, rfl, rfl, rfl, rfl, rfl⟩,
    by decide, by decide⟩

/-- C6.  set_workspace_name always returns True; when the workspace has
no cache entry it creates one with empty category maps and the given
alias, and when an entry exists it reassigns only the alias field,
leaving the category maps and updated_at of that entry, and the entries
of all other workspaces, unchanged. -/
theorem set_workspace_name_spec (all : AllResources) (workspace_id : String)
    (name : String) (now : Nat) :
    (set_workspace_name all workspace_id name now).2 = true ∧
    (∀ k : String, k ≠ workspace_id →
        alookup (set_workspace_name all workspace_id name now).1 k = alookup all k) ∧
    (alookup all workspace_id = none →
        alookup (set_workspace_name all workspace_id name now).1 workspace_id =
          some { id := workspace_id, name := name, projects := [], compute_groups := []
                 specs := [], updated_at := now }) ∧
    (∀ e : WorkspaceCache, alookup all workspace_id = some e →
        alookup (set_workspace_name all workspace_id name now).1 workspace_id =
          some { e with name := name }) := by
  refine ⟨?_, ?_, ?_, ?_⟩
  · cases h : alookup all workspace_id <;> simp [set_workspace_name, h]
  · intro k hk
    cases h : alookup all workspace_id <;>
      simp [set_workspace_name, h, alookup_dictSet_ne all workspace_id k _ hk]
  · intro h
    simp [set_workspace_name, h, alookup_dictSet_self]
  · intro e h
    simp [set_workspace_name, h, alookup_dictSet_self]

/-- C6, witness: creation of a fresh entry, alias-only update of an
existing entry, and the frame on an unrelated workspace, at concrete
inputs. -/
theorem set_workspace_name_spec_witness :
    alookup (set_workspace_name demoAlpha ("ws-2") ("New") 9).1 ("ws-1") =
      alookup demoAlpha ("ws-1") ∧
    alookup (set_workspace_name demoAlpha ("ws-2") ("New") 9).1 ("ws-2") =
      some { id := ("ws-2"), name := ("New"), projects := [], compute_groups := []
             specs := [], updated_at := 9 } ∧
    alookup (set_workspace_name demoAlpha ("ws-1") ("New") 9).1 ("ws-1") =
      some { wsEntry ("ws-1") ("Alpha") with name := ("New") } :=
  ⟨(set_workspace_name_spec demoAlpha ("ws-2") ("New") 9).2.1 ("ws-1") (by decide),
   (set_workspace_name_spec demoAlpha ("ws-2") ("New") 9).2.2.1 (by decide),
   (set_workspace_name_spec demoAlpha ("ws-1") ("New") 9).2.2.2
      (wsEntry ("ws-1") ("Alpha")) (by decide)⟩

/-- C7.  find_resource_by_name returns None when the workspace has no
cache entry; otherwise it resolves with an exact pass and then a
case-insensitive substring pass over the one selected category map,
first hit in iteration order, and None when both passes fail (the
mapped None of the final conjunct).  The last conjunct states that the
result depends only on that one category map of that one workspace: two
caches agreeing there resolve identically. -/
theorem find_resource_two_pass (all all₂ : AllResources)
    (workspace_id : String) (resource_type : String) (name : String) :
    (alookup all workspace_id = none →
        find_resource_by_name all workspace_id resource_type name = none) ∧
    (∀ ws : WorkspaceCache, ∀ kv : String × Resource,
        alookup all workspace_id = some ws →
        (categoryMap ws resource_type).find? (fun kv => kv.2.getName = name) = some kv →
        find_resource_by_name all workspace_id resource_type name = some kv.2) ∧
    (∀ ws : WorkspaceCache,
        alookup all workspace_id = some ws →
        (categoryMap ws resource_type).find? (fun kv => kv.2.getName = name) = none →
        find_resource_by_name all workspace_id resource_type name =
          ((categoryMap ws resource_type).find?
            (fun kv => pyContainsCI kv.2.getName name)).map Prod.snd) ∧
    ((alookup all workspace_id).map (fun ws => categoryMap ws resource_type) =
        (alookup all₂ workspace_id).map (fun ws => categoryMap ws resource_type) →
      find_resource_by_name all workspace_id resource_type name =
        find_resource_by_name all₂ workspace_id resource_type name) := by
  refine ⟨?_, ?_, ?_, ?_⟩
  · intro h
    simp [find_resource_by_name, get_workspace_resources, h]
  · intro ws kv h hfind
    simp [find_resource_by_name, get_workspace_resources, h, hfind]
  · intro ws h hfind
    cases hf : (categoryMap ws resource_type).find?
        (fun kv => pyContainsCI kv.2.getName name) <;>
      simp [find_resource_by_name, get_workspace_resources, h, hfind, hf]
  · intro heq
    rw [find_resource_by_name_eq all workspace_id resource_type name,
      find_resource_by_name_eq all₂ workspace_id resource_type name, heq]

/-- C7, witness: at a concrete cache the absent workspace yields None,
the exact pass beats an earlier substring match, and with no exact match
the first substring match in iteration order wins. -/
theorem find_resource_two_pass_witness :
    find_resource_by_name demoResAll ("ws-0") ("projects") ("Alpha-Proj") = none ∧
    find_resource_by_name demoResAll ("ws-9") ("projects") ("Alpha-Proj") = some demoResA ∧
    find_resource_by_name demoResAll ("ws-9") ("projects") ("alpha") = some demoResB :=
  ⟨(find_resource_two_pass demoResAll demoResAll ("ws-0") ("projects") ("Alpha-Proj")).1
      (by decide),
   (find_resource_two_pass demoResAll demoResAll ("ws-9") ("projects") ("Alpha-Proj")).2.1
      demoWsRes (("p-1"), demoResA) (by decide) (by decide),
   (find_resource_two_pass demoResAll demoResAll ("ws-9") ("projects") ("alpha")).2.2.1
      demoWsRes (by decide) (by decide)⟩

/-- C8.  A workspace token starting with the id marker ws- is used
directly as the canonical id, independently of the cache, and name
resolution runs only for unmarked tokens; a group token starting with
lcg- is used directly as a key of the cached compute_groups dict,
independently of the alias cache consulted by name resolution, and
find_resource_by_name runs only for unmarked tokens. -/
theorem id_marker_bypasses_name_resolution (all all₂ : AllResources)
    (tok : String) (workspace_id : String)
    (compute_groups : List (String × Resource)) (group_filter : String) :
    (pyStartsWith tok ("ws-") = true →
        resolve_workspace_token all tok = some tok ∧
        resolve_workspace_token all tok = resolve_workspace_token all₂ tok) ∧
    (pyStartsWith tok ("ws-") = false →
        resolve_workspace_token all tok = find_workspace_by_name all tok) ∧
    (pyStartsWith group_filter ("lcg-") = true →
        resolve_group_filter all workspace_id compute_groups group_filter =
          (alookup compute_groups group_filter).map (fun g => [(group_filter, g)]) ∧
        resolve_group_filter all workspace_id compute_groups group_filter =
          resolve_group_filter all₂ workspace_id compute_groups group_filter) ∧
    (pyStartsWith group_filter ("lcg-") = false →
        resolve_group_filter all workspace_id compute_groups group_filter =
          (find_resource_by_name all workspace_id ("compute_groups") group_filter).map
            (fun found => [(found.id, found)])) := by
  refine ⟨?_, ?_, ?_, ?_⟩
  · intro h
    exact ⟨by simp [resolve_workspace_token, h], by simp [resolve_workspace_token, h]⟩
  · intro h
    simp [resolve_workspace_token, h]
  · intro h
    constructor
    · cases hg : alookup compute_groups group_filter <;>
        simp [resolve_group_filter, h, hg]
    · cases hg : alookup compute_groups group_filter <;>
        simp [resolve_group_filter, h, hg]
  · intro h
    cases hg : find_resource_by_name all workspace_id ("compute_groups") group_filter <;>
      simp [resolve_group_filter, h, hg]

/-- C8, witness: a marked workspace token resolves to itself even on an
empty cache, an unmarked one goes through name resolution, a marked
group token resolves by direct key lookup independently of the alias
cache, and an unmarked group token goes through find_resource_by_name.
-/
theorem id_marker_bypasses_name_resolution_witness :
    resolve_workspace_token [] ("ws-abc") = some ("ws-abc") ∧
    resolve_workspace_token demoWorkspaces ("GPU-Team") =
      find_workspace_by_name demoWorkspaces ("GPU-Team") ∧
    resolve_group_filter demoResAll ("ws-9") [(("lcg-1"), demoResA)] ("lcg-1") =
      resolve_group_filter [] ("ws-9") [(("lcg-1"), demoResA)] ("lcg-1") ∧
    resolve_group_filter demoResAll ("ws-9") demoWsRes.compute_groups ("verylarge") =
      (find_resource_by_name demoResAll ("ws-9") ("compute_groups") ("verylarge")).map
        (fun found => [(found.id, found)]) :=
  ⟨((id_marker_bypasses_name_resolution [] [] ("ws-abc") ("") [] ("")).1 (by decide)).1,
   (id_marker_bypasses_name_resolution demoWorkspaces [] ("GPU-Team") ("") [] ("")).2.1
      (by decide),
   ((id_marker_bypasses_name_resolution demoResAll [] ("") ("ws-9")
      [(("lcg-1"), demoResA)] ("lcg-1")).2.2.1 (by decide)).2,
   (id_marker_bypasses_name_resolution demoResAll [] ("") ("ws-9")
      demoWsRes.compute_groups ("verylarge")).2.2.2 (by decide)⟩

/-- C5.  The listing pipeline of cmd_list_cookie sorts the records by
created_at descending, an absent created_at sorting as the empty string;
with a status filter it keeps exactly the records whose status contains
the filter case-insensitively; and the limit truncates only after
sorting and filtering, so the output never exceeds the limit.  The final
conjunct settles the worked example of the spec: of the statuses
job_running, job_succeeded and RUNNING, the filter running keeps exactly
the first and third, in descending created_at order. -/
theorem cmd_list_sort_filter_limit (jobs : List JobRecord) (s : String) (limit : Nat) :
    (sortJobs jobs).Perm jobs ∧
    List.Sorted jobSortRel (sortJobs jobs) ∧
    (∀ j : JobRecord,
        j ∈ (sortJobs jobs).filter (fun j => pyContainsCI j.status s) ↔
          (j ∈ jobs ∧ pyContainsCI j.status s = true)) ∧
    cmd_list_cookie_pipeline jobs (some s) false limit =
      ((sortJobs jobs).filter (fun j => pyContainsCI j.status s)).take limit ∧
    (cmd_list_cookie_pipeline jobs (some s) false limit).length ≤ limit ∧
    cmd_list_cookie_pipeline demoJobs (some ("running")) false 20 =
      [demoJob1, demoJob3] := by
  have hperm : (sortJobs jobs).Perm jobs := List.perm_insertionSort jobSortRel jobs
  refine ⟨hperm, List.sorted_insertionSort jobSortRel jobs, ?_, rfl, ?_, by decide⟩
  · intro j
    rw [List.mem_filter, hperm.mem_iff]
  · show (List.take limit (statusFiltered jobs (some s))).length ≤ limit
    rw [List.length_take]
    omega

/-- C5, witness: the membership characterization and the
truncation-last shape of the pipeline, instantiated at the worked
example of the spec. -/
theorem cmd_list_sort_filter_limit_witness :
    (demoJob2 ∈ (sortJobs demoJobs).filter (fun j => pyContainsCI j.status ("running")) ↔
      (demoJob2 ∈ demoJobs ∧ pyContainsCI demoJob2.status ("running") = true)) ∧
    cmd_list_cookie_pipeline demoJobs (some ("running")) false 20 =
      ((sortJobs demoJobs).filter (fun j => pyContainsCI j.status ("running"))).take 20 :=
  ⟨(cmd_list_sort_filter_limit demoJobs ("running") 20).2.2.1 demoJob2,
   (cmd_list_sort_filter_limit demoJobs ("running") 20).2.2.2.1⟩

/-- C10.  get_token_cache returns a cached record exactly when the token
cache file exists, parses as JSON, and the expires_at field read with
default 0 exceeds the current time plus the 300 second buffer; on a
missing file, an unparsable file, or a token expiring within the buffer
it returns None. -/
theorem get_token_cache_characterization (file : FileState TokenCacheData) (now : Int) :
    ∀ c : TokenCacheData,
      (get_token_cache file now = some c ↔
        (file = FileState.parsed c ∧ c.expiresAtD > now + 300)) := by
  intro c
  cases file with
  | missing => simp [get_token_cache]
  | corrupt => simp [get_token_cache]
  | parsed d =>
    constructor
    · intro h
      by_cases hd : d.expiresAtD > now + 300
      · simp [get_token_cache, hd] at h
        subst h
        exact ⟨rfl, hd⟩
      · simp [get_token_cache, hd] at h
    · rintro ⟨hfile, hexp⟩
      cases hfile
      simp [get_token_cache, hexp]

end Qzcli
